import Mathlib

/-!
# Verification of the SIP.js subscription and publication engines

A shallow embedding of `src/api/publisher.ts` and `src/api/subscriber.ts`
(client-side PUBLISH and SUBSCRIBE/NOTIFY protocol engines), together with
theorems settling the specification claims about them.

JavaScript numbers that the code manipulates (expiry values, header values
run through `Number(...)`) are modelled as `Option ℚ`, where `none` stands
for `NaN`: every arithmetic value actually reachable in these code paths is
a rational (header strings parsed by `Number`, integer literals, products),
and `NaN` propagation/comparison is modelled explicitly.

Asynchronous behaviour is modelled by synchronous runs-to-completion:
each engine method is a function from the engine record to the updated
record plus the list of externally observable actions it performed
(requests sent, timers scheduled, state-change emissions, collection
removal). A callback registered during a run is not executed in that run;
timers are recorded with the delay passed to `setTimeout` (milliseconds).
JavaScript exceptions are modelled by `JSResult`: a thrown error carries
the mutations and actions performed before the `throw`.
-/

/-- A JavaScript number as used by these code paths: `none` is `NaN`. -/
abbrev JSNum := Option ℚ

/-- JS strict equality `x === 0` (`NaN === 0` is `false`). -/
def jsEqZero : JSNum → Bool
  | some q => q == 0
  | none => false

/-- JS comparison `a <= b` (`false` when either side is `NaN`). -/
def jsLe : JSNum → JSNum → Bool
  | some a, some b => decide (a ≤ b)
  | _, _ => false

/-- JS comparison `a >= b` (`false` when either side is `NaN`). -/
def jsGe : JSNum → JSNum → Bool
  | some a, some b => decide (b ≤ a)
  | _, _ => false

/-- JS comparison `a > b` (`false` when either side is `NaN`). -/
def jsGt : JSNum → JSNum → Bool
  | some a, some b => decide (b < a)
  | _, _ => false

/-- JS multiplication, propagating `NaN`. -/
def jsMul : JSNum → JSNum → JSNum
  | some a, some b => some (a * b)
  | _, _ => none

/-- `typeof x === "number"` for a value produced by `Number(...)`:
always `true`, since `Number` returns a number (possibly `NaN`). -/
def jsTypeofNumber (_ : JSNum) : Bool := true

/-- The result of running a JS method: either a normal return or a thrown
exception. Because JavaScript mutations performed before a `throw` persist,
a thrown result still carries the state and the actions so far. -/
inductive JSResult (α : Type) where
  | ok (a : α)
  | thrown (msg : String) (a : α)
deriving Repr, DecidableEq

/-! ## Publisher (`src/api/publisher.ts`) -/

/-- `PublisherState` from `publisher-state.ts`, as used by `publisher.ts`. -/
inductive PublisherState where
  | Initial
  | Published
  | Unpublished
  | Terminated
deriving Repr, DecidableEq

/-- Externally observable actions of a publisher run. -/
inductive PubAction where
  /-- A PUBLISH request was sent, recording its `Expires` header value, the
  `SIP-If-Match` header (present exactly when an entity tag was held), and
  the request body. -/
  | publishSent (expires : JSNum) (sipIfMatch : Option String) (body : Option String)
  /-- A state change was emitted by `stateTransition`. -/
  | stateEmitted (s : PublisherState)
  /-- `setTimeout(() => this.refreshRequest(), delayMs)` was called. -/
  | refreshScheduled (delayMs : JSNum)
  /-- The publisher was removed from the user agent's publisher collection. -/
  | removedFromCollection
deriving Repr, DecidableEq

/-- The fields of the `Publisher` class that its methods read or write.
`optionsBody`, `optionsExpires`, `optionsContentType`, `unpublishOnClose`
are the corresponding fields of `this.options` after the constructor has
normalized them (`contentType` is always set, `expires` is always an
integer number, `unpublishOnClose` is always a boolean). -/
structure Publisher where
  optionsBody : Option String
  optionsExpires : Option Int
  optionsContentType : String
  unpublishOnClose : Bool
  pubRequestBody : Option String
  pubRequestExpires : JSNum
  pubRequestEtag : Option String
  /-- `some d` when `publishRefreshTimer` holds a pending timer that was
  scheduled with delay `d` milliseconds. -/
  publishRefreshTimer : Option JSNum
  disposed : Bool
  state : PublisherState
  /-- Whether `userAgent._publishers` still holds this publisher. -/
  inCollection : Bool
deriving Repr, DecidableEq

/-- The value the constructor stores into `options.expires`:
`if (typeof options.expires !== "number" || options.expires % 1 !== 0)
 { options.expires = 3600; } else { options.expires = Number(options.expires); }`.
The input is `none` when `options.expires` was not a number (absent,
string, etc.), `some none` when it was `NaN`, `some (some q)` for the
number `q`. `q % 1 !== 0` holds exactly when `q` is not an integer
(for integers, `q % 1` is `0` or `-0`, and `-0 !== 0` is false). -/
def normalizeExpiresOption : Option JSNum → ℚ
  | some (some q) => if q.den = 1 then q else 3600
  | some none => 3600
  | none => 3600

/-- `stateTransition`'s validity switch: which transitions do not hit
`invalidTransition()`. -/
def validTransition : PublisherState → PublisherState → Bool
  | .Initial, .Published => true
  | .Initial, .Unpublished => true
  | .Initial, .Terminated => true
  | .Published, .Unpublished => true
  | .Published, .Terminated => true
  | .Unpublished, .Published => true
  | .Unpublished, .Terminated => true
  | _, _ => false

/-- Sequence two publisher steps, accumulating actions; a thrown error
skips the second step, as in JavaScript. -/
def pubSeq (r : JSResult (Publisher × List PubAction))
    (f : Publisher → JSResult (Publisher × List PubAction)) :
    JSResult (Publisher × List PubAction) :=
  match r with
  | .thrown m pa => .thrown m pa
  | .ok (p, as) =>
    match f p with
    | .ok (p2, bs) => .ok (p2, as ++ bs)
    | .thrown m (p2, bs) => .thrown m (p2, as ++ bs)

/-- `if (this.publishRefreshTimer) { clearTimeout(...); ... = undefined; }` -/
def clearRefreshTimer (p : Publisher) : Publisher :=
  { p with publishRefreshTimer := none }

/-- `sendPublishRequest()`: rebuilds the outgoing PUBLISH with headers
`Event`, `Expires: pubRequestExpires`, and `SIP-If-Match: pubRequestEtag`
when an entity tag is held, with `pubRequestBody` as body, and sends it.
(The `Content type undefined.` throw is unreachable: the constructor always
sets `options.contentType`.) -/
def sendPublishRequest (p : Publisher) : Publisher × List PubAction :=
  (p, [PubAction.publishSent p.pubRequestExpires p.pubRequestEtag p.pubRequestBody])

/-- `publish(content)`. -/
def publish (p : Publisher) (content : String) : JSResult (Publisher × List PubAction) :=
  let p := clearRefreshTimer p
  let p := { p with optionsBody := some content, pubRequestBody := some content }
  if jsEqZero p.pubRequestExpires then
    match p.optionsExpires with
    | none => .thrown "Expires undefined." (p, [])
    | some e =>
      let p := { p with pubRequestExpires := some (e : ℚ), pubRequestEtag := none }
      .ok (sendPublishRequest p)
  else
    .ok (sendPublishRequest p)

/-- `unpublish()`. Never throws; returns an already-resolved promise. -/
def unpublish (p : Publisher) : Publisher × List PubAction :=
  let p := clearRefreshTimer p
  let p := { p with pubRequestBody := none, pubRequestExpires := some 0 }
  if p.pubRequestEtag.isSome then
    sendPublishRequest p
  else
    (p, [])

/-- `dispose()`. Never throws; the promise it returns is either
`Promise.resolve()` or the (already resolved) promise of `unpublish()`,
so it is settled when this function returns. -/
def dispose (p : Publisher) : Publisher × List PubAction :=
  if p.disposed then (p, [])
  else
    let p := { p with disposed := true, inCollection := false }
    if p.unpublishOnClose && p.state == PublisherState.Published then
      let (p2, acts) := unpublish p
      (p2, PubAction.removedFromCollection :: acts)
    else
      let p := clearRefreshTimer p
      let p := { p with pubRequestBody := none, pubRequestExpires := some 0,
                        pubRequestEtag := none }
      (p, [PubAction.removedFromCollection])

/-- `stateTransition(newState)`: validate, assign, emit, and dispose on
`Terminated`. The throw happens before any mutation, so a thrown result
carries the publisher unchanged. -/
def stateTransition (p : Publisher) (newState : PublisherState) :
    JSResult (Publisher × List PubAction) :=
  if validTransition p.state newState then
    let p2 := { p with state := newState }
    if newState == PublisherState.Terminated then
      let (p3, acts) := dispose p2
      .ok (p3, PubAction.stateEmitted newState :: acts)
    else
      .ok (p2, [PubAction.stateEmitted newState])
  else
    .thrown "Invalid state transition" (p, [])

/-- The parts of an incoming PUBLISH response that `receiveResponse` reads.
`statusCode` is `response.statusCode || 0`. A header field is `none` when
`hasHeader` is false; a numeric header is modelled by the value `Number`
yields on its text (`some none` = present but `NaN`). -/
structure PublishResponse where
  statusCode : Nat
  sipETag : Option String
  expiresHeader : Option JSNum
  minExpiresHeader : Option JSNum
deriving Repr, DecidableEq

/-- `/^1[0-9]{2}$/.test(statusCode.toString())` for a natural status code. -/
def isStatus1xx (n : Nat) : Bool := 100 ≤ n && n ≤ 199

/-- `/^2[0-9]{2}$/.test(statusCode.toString())` for a natural status code. -/
def isStatus2xx (n : Nat) : Bool := 200 ≤ n && n ≤ 299

/-- The unrecoverable-response path, shared by the 412, 423 and default
branches: force expiry to 0, transition `Unpublished` then `Terminated`. -/
def publishFailTerminate (p : Publisher) : JSResult (Publisher × List PubAction) :=
  let p := { p with pubRequestExpires := some 0 }
  pubSeq (stateTransition p PublisherState.Unpublished)
    (fun q => stateTransition q PublisherState.Terminated)

/-- The 200-class branch of `receiveResponse`: capture `SIP-ETag`, accept
the `Expires` header when `0 <= expires <= pubRequestExpires` (keeping the
prior value otherwise), then either schedule a refresh at
`pubRequestExpires * 900` milliseconds and move to `Published`, or move to
`Unpublished` when the expiry is 0. -/
def receive2xx (p : Publisher) (r : PublishResponse) : JSResult (Publisher × List PubAction) :=
  let p := match r.sipETag with
    | some t => { p with pubRequestEtag := some t }
    | none => p
  let p := match r.expiresHeader with
    | some e =>
      if jsTypeofNumber e && jsGe e (some 0) && jsLe e p.pubRequestExpires then
        { p with pubRequestExpires := e }
      else p
    | none => p
  if !jsEqZero p.pubRequestExpires then
    let d := jsMul p.pubRequestExpires (some 900)
    let p := { p with publishRefreshTimer := some d }
    if p.state != PublisherState.Published then
      pubSeq (.ok (p, [PubAction.refreshScheduled d]))
        (fun q => stateTransition q PublisherState.Published)
    else
      .ok (p, [PubAction.refreshScheduled d])
  else
    stateTransition p PublisherState.Unpublished

/-- The 412 branch of `receiveResponse`: when an entity tag is held and
the expiry is nonzero, clear the entity tag and republish the cached body;
otherwise the unrecoverable path. -/
def receive412 (p : Publisher) : JSResult (Publisher × List PubAction) :=
  if p.pubRequestEtag.isSome && !jsEqZero p.pubRequestExpires then
    let p := { p with pubRequestEtag := none }
    match p.optionsBody with
    | none => .thrown "Body undefined." (p, [])
    | some b => publish p b
  else
    publishFailTerminate p

/-- The 423 branch of `receiveResponse`. The source condition on the
parsed `Min-Expires` value is
`typeof minExpires === "number" || minExpires > this.pubRequestExpires`
(with `||`, not `&&`), embedded verbatim below. -/
def receive423 (p : Publisher) (r : PublishResponse) : JSResult (Publisher × List PubAction) :=
  if !jsEqZero p.pubRequestExpires then
    match r.minExpiresHeader with
    | some minExpires =>
      if jsTypeofNumber minExpires || jsGt minExpires p.pubRequestExpires then
        let p := { p with pubRequestExpires := minExpires }
        match p.optionsBody with
        | none => .thrown "Body undefined." (p, [])
        | some b => publish p b
      else
        publishFailTerminate p
    | none => publishFailTerminate p
  else
    publishFailTerminate p

/-- The cleanup after the status-code switch: when the expiry ended at 0,
cancel any refresh timer and clear the stored body and entity tag. -/
def receiveResponseCleanup (p : Publisher) : Publisher :=
  if jsEqZero p.pubRequestExpires then
    { p with publishRefreshTimer := none, pubRequestBody := none, pubRequestEtag := none }
  else p

/-- `receiveResponse(response)`: dispatch on the status-code class, then
run the cleanup (skipped when the branch threw, as in JavaScript). -/
def receiveResponse (p : Publisher) (r : PublishResponse) :
    JSResult (Publisher × List PubAction) :=
  let core :=
    if isStatus1xx r.statusCode then .ok (p, [])
    else if isStatus2xx r.statusCode then receive2xx p r
    else if r.statusCode == 412 then receive412 p
    else if r.statusCode == 423 then receive423 p r
    else publishFailTerminate p
  match core with
  | .ok (q, acts) => .ok (receiveResponseCleanup q, acts)
  | .thrown m pa => .thrown m pa

/-! ## Subscriber (`src/api/subscriber.ts`) -/

/-- The public `SubscriptionState` of the `Subscription` base class. -/
inductive SubscriptionState where
  | Initial
  | NotifyWait
  | Subscribed
  | Terminated
deriving Repr, DecidableEq

/-- The core subscription-dialog state enum
(`core/subscription/subscription.ts`), also the derived state of a
`SubscriberRequest`. -/
inductive SubscriptionDialogState where
  | Initial
  | NotifyWait
  | Pending
  | Active
  | Terminated
deriving Repr, DecidableEq

/-- Externally observable actions of a subscriber run. -/
inductive SubAction where
  /-- `core.subscribe(message, ...)` sent an out-of-dialog SUBSCRIBE. -/
  | subscribeSent
  /-- `dialog.refresh()` sent a re-SUBSCRIBE within the dialog. -/
  | refreshSent
  /-- `setTimeout(() => this.subscribe(), delayMs)` was called: a
  re-subscription was scheduled after `delayMs` milliseconds. -/
  | retryScheduled (delayMs : ℚ)
  /-- A public state change was emitted. -/
  | subStateEmitted (s : SubscriptionState)
  /-- `dialog.unsubscribe()` was requested. -/
  | dialogUnsubscribed
  /-- The NOTIFY was auto-accepted (`request.accept()`). -/
  | notifyAccepted
  /-- The NOTIFY was delivered to the application delegate. -/
  | delegateNotified
deriving Repr, DecidableEq

/-- The coordinator class `SubscriberRequest`: owns exactly one outgoing
SUBSCRIBE attempt. Its constructor builds the outgoing message (headers
`Allow`, `Event`, `Expires`, `Contact`); the fields its methods dispatch
on are the single-use flag and the dialog captured from the first NOTIFY
(modelled by that dialog's `subscriptionState`). -/
structure SubscriberRequest where
  subscribed : Bool
  subscription : Option SubscriptionDialogState
deriving Repr, DecidableEq

/-- The `state` getter of `SubscriberRequest`. -/
def SubscriberRequest.state (r : SubscriberRequest) : SubscriptionDialogState :=
  match r.subscription with
  | some d => d
  | none => if r.subscribed then SubscriptionDialogState.NotifyWait
            else SubscriptionDialogState.Initial

/-- `SubscriberRequest.subscribe()`: rejects with a precondition error when
already subscribed (sending nothing), otherwise sets the single-use flag
and sends the SUBSCRIBE through the core with the five callback hooks.
The resolution of the returned promise is asynchronous and not part of
this run. -/
def SubscriberRequest.subscribe (r : SubscriberRequest) :
    Except String (SubscriberRequest × List SubAction) :=
  if r.subscribed then
    Except.error "Not in initial state. Did you call subscribe more than once?"
  else
    Except.ok ({ r with subscribed := true }, [SubAction.subscribeSent])

/-- The fields of `Subscriber` (and of its base class `Subscription`) that
the analyzed methods read or write. -/
structure Subscriber where
  disposed : Bool
  state : SubscriptionState
  /-- Whether `this.delegate && this.delegate.onNotify` holds. -/
  hasOnNotifyDelegate : Bool
  subscriberRequest : SubscriberRequest
  /-- `this._dialog`, modelled by its `subscriptionState` when present. -/
  dialog : Option SubscriptionDialogState
  /-- `some d` when `retryAfterTimer` holds a pending timer scheduled with
  delay `d` milliseconds. -/
  retryAfterTimer : Option ℚ
  /-- `this.expires` (normalized to a number by the constructor). -/
  expires : Int
deriving Repr, DecidableEq

/-- Modelled from the spec: the base class `Subscription`
(`src/api/subscription.ts` is not among the analyzed sources) validates and
applies public state transitions along
`Initial → NotifyWait → Subscribed → Terminated` and emits each new state
on the state-change emitter. -/
def subStateTransition (s : Subscriber) (ns : SubscriptionState) :
    Subscriber × List SubAction :=
  ({ s with state := ns }, [SubAction.subStateEmitted ns])

/-- `initSubscriberRequest()`: replace the coordinator with a freshly
constructed `SubscriberRequest` (new outgoing SUBSCRIBE message, `onAccept`
delegate re-armed; nothing is sent yet). -/
def initSubscriberRequest (s : Subscriber) : Subscriber :=
  { s with subscriberRequest := { subscribed := false, subscription := none } }

/-- `unsubscribe()`: no-op when disposed; request a dialog unsubscribe when
the coordinator state is `Pending` or `Active` and a dialog exists
(responses intentionally ignored); unconditionally transition the public
state to `Terminated`. -/
def Subscriber.unsubscribe (s : Subscriber) : Subscriber × List SubAction :=
  if s.disposed then (s, [])
  else
    let acts :=
      match s.subscriberRequest.state with
      | SubscriptionDialogState.Pending =>
        if s.dialog.isSome then [SubAction.dialogUnsubscribed] else []
      | SubscriptionDialogState.Active =>
        if s.dialog.isSome then [SubAction.dialogUnsubscribed] else []
      | _ => []
    let (s2, a2) := subStateTransition s SubscriptionState.Terminated
    (s2, acts ++ a2)

/-- `subscribe()` on `Subscriber`: dispatch on the coordinator's derived
state. In the `Initial` case the promise continuation (`.then((result) =>
...)`) runs only when the SUBSCRIBE attempt later resolves, so it is not
part of this run; a rejected coordinator promise leaves this run silently. -/
def Subscriber.subscribe (s : Subscriber) : Subscriber × List SubAction :=
  match s.subscriberRequest.state with
  | SubscriptionDialogState.Initial =>
    let (s1, a1) :=
      if s.state = SubscriptionState.Initial then
        subStateTransition s SubscriptionState.NotifyWait
      else (s, [])
    match s1.subscriberRequest.subscribe with
    | Except.ok (r2, a2) => ({ s1 with subscriberRequest := r2 }, a1 ++ a2)
    | Except.error _ => (s1, a1)
  | SubscriptionDialogState.NotifyWait => (s, [])
  | SubscriptionDialogState.Pending => (s, [])
  | SubscriptionDialogState.Active =>
    if s.dialog.isSome then (s, [SubAction.refreshSent]) else (s, [])
  | SubscriptionDialogState.Terminated => (s, [])

/-- The parsed `Subscription-State` header (`state`, optional `reason`,
optional parameter map with `retry-after`). -/
structure SubscriptionStateHeader where
  state : String
  reason : Option String
  /-- the `retry-after` parameter value, when the parameter is present. -/
  retryAfter : Option ℚ
deriving Repr, DecidableEq

/-- The part of an incoming NOTIFY that `onNotify` reads: the parsed
`Subscription-State` header, `none` when `parseHeader` yields nothing. -/
structure NotifyRequest where
  subscriptionStateHeader : Option SubscriptionStateHeader
deriving Repr, DecidableEq

/-- `onNotify(request)`: accept-and-return when disposed; transition to
`Subscribed` if not already there; deliver to the delegate or auto-accept;
then dispatch on the `Subscription-State` value. On `terminated`:
`deactivated`/`timeout` rebuild the coordinator and re-subscribe at once;
`probation`/`giveup` rebuild the coordinator and schedule the
re-subscription with `setTimeout(..., params["retry-after"])` when that
parameter is (JS-truthily) present, else re-subscribe at once;
`rejected`/`noresource`/`invariant`, an empty or unknown reason, or no
reason fall through to `unsubscribe()`. -/
def Subscriber.onNotify (s : Subscriber) (req : NotifyRequest) :
    Subscriber × List SubAction :=
  if s.disposed then (s, [SubAction.notifyAccepted])
  else
    let (s, a1) :=
      if s.state ≠ SubscriptionState.Subscribed then
        subStateTransition s SubscriptionState.Subscribed
      else (s, [])
    let a2 := if s.hasOnNotifyDelegate then [SubAction.delegateNotified]
              else [SubAction.notifyAccepted]
    let cont : Subscriber × List SubAction :=
      match req.subscriptionStateHeader with
      | none => (s, [])
      | some h =>
        if h.state = "" then (s, [])
        else if h.state = "terminated" then
          match h.reason with
          | some reason =>
            if reason = "deactivated" ∨ reason = "timeout" then
              let s := initSubscriberRequest s
              s.subscribe
            else if reason = "probation" ∨ reason = "giveup" then
              let s := initSubscriberRequest s
              match h.retryAfter with
              | some v =>
                if v ≠ 0 then
                  ({ s with retryAfterTimer := some v }, [SubAction.retryScheduled v])
                else s.subscribe
              | none => s.subscribe
            else s.unsubscribe
          | none => s.unsubscribe
        else (s, [])
    (cont.1, a1 ++ a2 ++ cont.2)

/-! ## Concrete instances used by witnesses and counterexamples -/

/-- A live publisher: state `Published`, requested expiry 60, entity tag
`"tag"` held, cached body `"b"`, `unpublishOnClose` set. -/
def samplePublisher : Publisher :=
  { optionsBody := some "b", optionsExpires := some 60, optionsContentType := "text/plain",
    unpublishOnClose := true, pubRequestBody := none, pubRequestExpires := some 60,
    pubRequestEtag := some "tag", publishRefreshTimer := none, disposed := false,
    state := PublisherState.Terminated, inCollection := true }

/-- `samplePublisher` but in state `Published` (the live mid-publication
configuration). -/
def publishedPublisher : Publisher :=
  { samplePublisher with state := PublisherState.Published }

/-- A 423 response carrying `Min-Expires: 30`. -/
def response423MinExpires30 : PublishResponse :=
  { statusCode := 423, sipETag := none, expiresHeader := none,
    minExpiresHeader := some (some 30) }

/-- A 2xx response carrying `SIP-ETag: t2` and `Expires: 1800`. -/
def response200Expires1800 : PublishResponse :=
  { statusCode := 200, sipETag := some "t2", expiresHeader := some (some 1800),
    minExpiresHeader := none }

/-- A 412 response (no headers read by the 412 branch). -/
def response412 : PublishResponse :=
  { statusCode := 412, sipETag := none, expiresHeader := none, minExpiresHeader := none }

/-- A live subscriber with an active established dialog, public state
`Subscribed`, no application delegate. -/
def sampleSubscriber : Subscriber :=
  { disposed := false, state := SubscriptionState.Subscribed, hasOnNotifyDelegate := false,
    subscriberRequest := { subscribed := true,
                           subscription := some SubscriptionDialogState.Active },
    dialog := some SubscriptionDialogState.Active, retryAfterTimer := none,
    expires := 3600 }

/-- A NOTIFY carrying `Subscription-State: terminated;reason=giveup;retry-after=30`. -/
def notifyGiveupRetryAfter30 : NotifyRequest :=
  { subscriptionStateHeader := some { state := "terminated", reason := some "giveup",
                                      retryAfter := some 30 } }

/-- A NOTIFY carrying `Subscription-State: terminated;reason=deactivated`. -/
def notifyDeactivated : NotifyRequest :=
  { subscriptionStateHeader := some { state := "terminated", reason := some "deactivated",
                                      retryAfter := none } }

/-- A fresh request coordinator (as built by `initSubscriberRequest`). -/
def freshSubscriberRequest : SubscriberRequest :=
  { subscribed := false, subscription := none }

/-- Expected publisher after the 412 recovery path republishes body `b`:
entity tag cleared, body cached and resent, timer cancelled. -/
def recovered412Publisher (p : Publisher) (b : String) : Publisher :=
  { p with pubRequestEtag := none, optionsBody := some b, pubRequestBody := some b,
           publishRefreshTimer := none }

/-- Expected publisher after the unrecoverable-response path
(`Unpublished` then `Terminated`, auto-dispose, post-switch cleanup). -/
def terminatedPublisher (p : Publisher) : Publisher :=
  { p with pubRequestExpires := some 0, state := PublisherState.Terminated,
           disposed := true, inCollection := false, publishRefreshTimer := none,
           pubRequestBody := none, pubRequestEtag := none }

/-- Expected publisher after `stateTransition` reaches `Terminated` and
auto-disposes (identical to `terminatedPublisher` but named for the
transition-initiated path). -/
def autoDisposedPublisher (p : Publisher) : Publisher :=
  { p with state := PublisherState.Terminated, disposed := true, inCollection := false,
           publishRefreshTimer := none, pubRequestBody := none,
           pubRequestExpires := some 0, pubRequestEtag := none }

/-- Expected publisher after the (buggy) 423 branch adopts `Min-Expires: 30`
from `response423MinExpires30` and resends. -/
def publisher423Resent : Publisher :=
  { publishedPublisher with pubRequestBody := some "b", pubRequestExpires := some 30 }

/-- Expected subscriber after `notifyGiveupRetryAfter30`: coordinator
rebuilt fresh, retry timer pending with the raw delay 30. -/
def subscriberAfterGiveup : Subscriber :=
  { sampleSubscriber with subscriberRequest := freshSubscriberRequest,
                          retryAfterTimer := some 30 }

/-- A publisher mid-publication with requested expiry 3600 (entity tag
`"t1"` held, body `"b"` cached). -/
def publisher3600 : Publisher :=
  { publishedPublisher with optionsExpires := some 3600, pubRequestExpires := some 3600,
                            pubRequestEtag := some "t1" }

/-! ## Claim theorems -/

/-- C5: for every publisher whose state is `Terminated`, any attempted
state transition (to any target state) raises the precondition error and
leaves the publisher — in particular its state — unchanged, so
`Terminated` is never left once entered. -/
theorem terminated_publisher_rejects_all_transitions (p : Publisher) (t : PublisherState)
    (h : p.state = PublisherState.Terminated) :
    stateTransition p t = JSResult.thrown "Invalid state transition" (p, []) := by
  have hv : validTransition p.state t = false := by
    rw [h]; cases t <;> rfl
  simp [stateTransition, hv]

/-- Witness for C5: the sample terminated publisher rejects a transition
to `Published`. -/
theorem terminated_publisher_rejects_all_transitions_witness :
    stateTransition samplePublisher PublisherState.Published =
      JSResult.thrown "Invalid state transition" (samplePublisher, []) :=
  terminated_publisher_rejects_all_transitions samplePublisher PublisherState.Published rfl

/-- C10: the constructor replaces every `options.expires` that is not a
number (`none`), is `NaN` (`some none`), or is a non-integer number with
the default 3600; consequently the stored requested expiry is always
either the (non-negative, integer) default 3600 or the caller-supplied
integer. -/
theorem constructor_normalizes_expires_option (o : Option JSNum) :
    (∀ q : ℚ, q.den ≠ 1 → normalizeExpiresOption (some (some q)) = 3600) ∧
    normalizeExpiresOption none = 3600 ∧
    normalizeExpiresOption (some none) = 3600 ∧
    (normalizeExpiresOption o = 3600 ∨
      ∃ n : ℤ, o = some (some (n : ℚ)) ∧ normalizeExpiresOption o = (n : ℚ)) := by
  refine ⟨?_, rfl, rfl, ?_⟩
  · intro q hq
    simp [normalizeExpiresOption, hq]
  · match o with
    | none => exact Or.inl rfl
    | some none => exact Or.inl rfl
    | some (some q) =>
      by_cases hq : q.den = 1
      · refine Or.inr ⟨q.num, ?_, ?_⟩
        · rw [Rat.coe_int_num_of_den_eq_one hq]
        · rw [Rat.coe_int_num_of_den_eq_one hq]
          simp [normalizeExpiresOption, hq]
      · exact Or.inl (by simp [normalizeExpiresOption, hq])

/-- Witness for C10: `3600.5` (i.e. `7201/2`) is replaced by the
default 3600. -/
theorem constructor_normalizes_expires_option_witness :
    normalizeExpiresOption (some (some (7201 / 2))) = 3600 :=
  (constructor_normalizes_expires_option (some (some (7201 / 2)))).1 (7201 / 2) (by norm_num)

/-- C6: on a request coordinator, the first call to `subscribe()` succeeds
and sends exactly one SUBSCRIBE, and every subsequent call on the same
instance (which now has its single-use flag set, and is never reset) fails
with the precondition error and sends nothing. -/
theorem subscriber_request_subscribe_single_use (r : SubscriberRequest)
    (h : r.subscribed = false) :
    SubscriberRequest.subscribe r =
      Except.ok ({ r with subscribed := true }, [SubAction.subscribeSent]) ∧
    SubscriberRequest.subscribe { r with subscribed := true } =
      Except.error "Not in initial state. Did you call subscribe more than once?" := by
  constructor
  · simp [SubscriberRequest.subscribe, h]
  · simp [SubscriberRequest.subscribe]

/-- Witness for C6: a fresh coordinator accepts the first `subscribe()`
and rejects the second. -/
theorem subscriber_request_subscribe_single_use_witness :
    SubscriberRequest.subscribe freshSubscriberRequest =
      Except.ok ({ freshSubscriberRequest with subscribed := true },
        [SubAction.subscribeSent]) ∧
    SubscriberRequest.subscribe { freshSubscriberRequest with subscribed := true } =
      Except.error "Not in initial state. Did you call subscribe more than once?" :=
  subscriber_request_subscribe_single_use freshSubscriberRequest rfl

/-- C1 (code bug): a 423 response whose `Min-Expires` (here 30) is LESS
than the nonzero requested expiry (here 60) should, per the claim, force
expiry 0 and transition `Unpublished` then `Terminated` without resending;
the code instead adopts the smaller server minimum and resends, because
the source condition `typeof minExpires === "number" || minExpires >
this.pubRequestExpires` uses `||` where the dead else branch (warning
about a bad `Min-Expires` header) shows `&&` was intended, making the
first disjunct — always true for a `Number(...)` result — decide. This
run resends one PUBLISH requesting `Expires: 30` and never transitions. -/
theorem response423_low_min_expires_still_resends :
    receiveResponse publishedPublisher response423MinExpires30 =
      JSResult.ok (publisher423Resent,
        [PubAction.publishSent (some 30) (some "tag") (some "b")]) := by
  decide

/-- C2 (code bug): a NOTIFY carrying
`Subscription-State: terminated;reason=giveup;retry-after=30` rebuilds the
coordinator and schedules exactly one re-subscription, sending no
SUBSCRIBE in the meantime — but the delay handed to `setTimeout` is the
raw `retry-after` value 30, i.e. 30 milliseconds, not the 30 seconds
(30000 ms) the claim and RFC 6665 (quoted in the code's own comment)
require. -/
theorem notify_giveup_schedules_retry_in_raw_milliseconds :
    Subscriber.onNotify sampleSubscriber notifyGiveupRetryAfter30 =
      (subscriberAfterGiveup,
        [SubAction.notifyAccepted, SubAction.retryScheduled 30]) := by
  decide

/-- C3 counterexample: on a `Published` publisher with `unpublishOnClose`
set and entity tag held, `dispose()` runs to completion — its returned
promise is `unpublish()`'s already-resolved `Promise.resolve()` — while
the state is still `Published` and no state transition at all (in
particular no terminal one) has been emitted, refuting the claim that the
promise resolves only after the terminal transition caused by the
unpublish. -/
theorem dispose_resolves_with_state_still_published :
    (dispose publishedPublisher).1.state = PublisherState.Published ∧
    (dispose publishedPublisher).2 =
      [PubAction.removedFromCollection,
       PubAction.publishSent (some 0) (some "tag") none] := by
  decide

/-- C3 (amended): `dispose()` on a `Published` publication with
`unpublishOnClose = true` issues the unpublish (sending the removal
PUBLISH with `Expires: 0` under the held entity tag, when one is held),
but the promise it returns is already resolved when `dispose` returns:
no state transition — in particular not the terminal one, which happens
only later when the response to the removal PUBLISH is processed — has
occurred by then. -/
theorem dispose_published_unpublishes_but_resolves_immediately (p : Publisher)
    (hd : p.disposed = false) (hs : p.state = PublisherState.Published)
    (hu : p.unpublishOnClose = true) :
    (dispose p).1.state = PublisherState.Published ∧
    (dispose p).1.disposed = true ∧
    (dispose p).1.inCollection = false ∧
    (dispose p).2 = PubAction.removedFromCollection ::
      (match p.pubRequestEtag with
        | some t => [PubAction.publishSent (some 0) (some t) none]
        | none => []) ∧
    ∀ st, PubAction.stateEmitted st ∉ (dispose p).2 := by
  cases hE : p.pubRequestEtag <;>
    simp [dispose, hd, hs, hu, unpublish, clearRefreshTimer, sendPublishRequest, hE]

/-- Witness for C3's amended theorem: the sample published publisher. -/
theorem dispose_published_unpublishes_but_resolves_immediately_witness :
    (dispose publishedPublisher).1.state = PublisherState.Published ∧
    (dispose publishedPublisher).1.disposed = true ∧
    (dispose publishedPublisher).1.inCollection = false ∧
    (dispose publishedPublisher).2 = PubAction.removedFromCollection ::
      (match publishedPublisher.pubRequestEtag with
        | some t => [PubAction.publishSent (some 0) (some t) none]
        | none => []) ∧
    ∀ st, PubAction.stateEmitted st ∉ (dispose publishedPublisher).2 :=
  dispose_published_unpublishes_but_resolves_immediately publishedPublisher rfl rfl rfl

/-- C9: whenever a (not yet disposed) publisher transitions to
`Terminated`, `dispose()` runs automatically as part of the transition:
the resulting publisher is marked disposed and removed from the user
agent's publisher collection, and a later explicit `dispose()` call is a
no-op that resolves immediately. -/
theorem transition_to_terminated_autodisposes (p : Publisher)
    (hd : p.disposed = false)
    (hv : validTransition p.state PublisherState.Terminated = true) :
    stateTransition p PublisherState.Terminated =
      JSResult.ok (autoDisposedPublisher p,
        [PubAction.stateEmitted PublisherState.Terminated,
         PubAction.removedFromCollection]) ∧
    (autoDisposedPublisher p).disposed = true ∧
    (autoDisposedPublisher p).inCollection = false ∧
    (autoDisposedPublisher p).state = PublisherState.Terminated ∧
    dispose (autoDisposedPublisher p) = (autoDisposedPublisher p, []) := by
  refine ⟨?_, rfl, rfl, rfl, ?_⟩
  · simp [stateTransition, hv, dispose, hd, clearRefreshTimer, autoDisposedPublisher]
  · simp [dispose, autoDisposedPublisher]

/-- Witness for C9: the sample published publisher transitioning to
`Terminated`. -/
theorem transition_to_terminated_autodisposes_witness :
    stateTransition publishedPublisher PublisherState.Terminated =
      JSResult.ok (autoDisposedPublisher publishedPublisher,
        [PubAction.stateEmitted PublisherState.Terminated,
         PubAction.removedFromCollection]) ∧
    (autoDisposedPublisher publishedPublisher).disposed = true ∧
    (autoDisposedPublisher publishedPublisher).inCollection = false ∧
    (autoDisposedPublisher publishedPublisher).state = PublisherState.Terminated ∧
    dispose (autoDisposedPublisher publishedPublisher) =
      (autoDisposedPublisher publishedPublisher, []) :=
  transition_to_terminated_autodisposes publishedPublisher rfl rfl

/-- C7: for a publication holding an entity tag with nonzero expiry, a 412
response clears the entity tag and resends exactly one PUBLISH with the
same cached body and no `SIP-If-Match` header; with no entity tag held or
zero expiry, it forces expiry 0 and transitions `Unpublished` then
`Terminated` (auto-disposing) without resending. -/
theorem response412_recovers_or_terminates (p : Publisher) (r : PublishResponse)
    (hst : r.statusCode = 412) :
    (∀ t b q0, p.pubRequestEtag = some t → p.optionsBody = some b →
      p.pubRequestExpires = some q0 → q0 ≠ 0 →
      receiveResponse p r =
        JSResult.ok (recovered412Publisher p b,
          [PubAction.publishSent (some q0) none (some b)])) ∧
    ((p.pubRequestEtag = none ∨ p.pubRequestExpires = some 0) →
      p.disposed = false → p.state = PublisherState.Published →
      receiveResponse p r =
        JSResult.ok (terminatedPublisher p,
          [PubAction.stateEmitted PublisherState.Unpublished,
           PubAction.stateEmitted PublisherState.Terminated,
           PubAction.removedFromCollection])) := by
  constructor
  · intro t b q0 hE hb hq hq0
    have hbeq : (q0 == 0) = false := by simp [hq0]
    simp [receiveResponse, hst, isStatus1xx, isStatus2xx, receive412, hE, hq, jsEqZero,
      hbeq, publish, clearRefreshTimer, hb, sendPublishRequest, receiveResponseCleanup,
      recovered412Publisher]
  · intro hcond hd hs
    rcases hcond with hE | hq
    · simp [receiveResponse, hst, isStatus1xx, isStatus2xx, receive412, hE,
        publishFailTerminate, pubSeq, stateTransition, validTransition, hs, dispose, hd,
        clearRefreshTimer, receiveResponseCleanup, jsEqZero, terminatedPublisher]
    · simp [receiveResponse, hst, isStatus1xx, isStatus2xx, receive412, hq,
        publishFailTerminate, pubSeq, stateTransition, validTransition, hs, dispose, hd,
        clearRefreshTimer, receiveResponseCleanup, jsEqZero, terminatedPublisher]

/-- Witness for C7: the sample published publisher (entity tag `"tag"`,
expiry 60, body `"b"`) recovering from a 412. -/
theorem response412_recovers_or_terminates_witness :
    receiveResponse publishedPublisher response412 =
      JSResult.ok (recovered412Publisher publishedPublisher "b",
        [PubAction.publishSent (some 60) none (some "b")]) :=
  (response412_recovers_or_terminates publishedPublisher response412 rfl).1
    "tag" "b" 60 rfl rfl rfl (by norm_num)

/-- C4: on a 2xx response whose `Expires` value `e` satisfies
`0 <= e <= requested`, the granted expiry becomes `e`; when `e` is nonzero
the refresh is scheduled with delay `e * 900` milliseconds — exactly 90%
of the granted `e` seconds, never 90% of the originally requested expiry
(every scheduled delay in the run equals `e * 900`) — and no PUBLISH is
sent; when the header is absent, `NaN`, or out of range, the prior
requested value is kept; when `e = 0` the publication transitions to
`Unpublished` with no refresh scheduled. -/
theorem response2xx_grants_expires_and_schedules_ninety_percent
    (p : Publisher) (r : PublishResponse) (req : ℚ)
    (hst : isStatus2xx r.statusCode = true)
    (hreq : p.pubRequestExpires = some req)
    (hterm : p.state ≠ PublisherState.Terminated) :
    (∀ e : ℚ, r.expiresHeader = some (some e) → 0 ≤ e → e ≤ req → e ≠ 0 →
      ∃ q acts, receiveResponse p r = JSResult.ok (q, acts) ∧
        q.pubRequestExpires = some e ∧
        q.publishRefreshTimer = some (some (e * 900)) ∧
        acts.count (PubAction.refreshScheduled (some (e * 900))) = 1 ∧
        (∀ d, PubAction.refreshScheduled d ∈ acts → d = some (e * 900)) ∧
        (∀ x y z, PubAction.publishSent x y z ∉ acts)) ∧
    (∀ e : ℚ, r.expiresHeader = some (some e) → (e < 0 ∨ req < e) → req ≠ 0 →
      ∃ q acts, receiveResponse p r = JSResult.ok (q, acts) ∧
        q.pubRequestExpires = some req) ∧
    ((r.expiresHeader = none ∨ r.expiresHeader = some none) → req ≠ 0 →
      ∃ q acts, receiveResponse p r = JSResult.ok (q, acts) ∧
        q.pubRequestExpires = some req) ∧
    (r.expiresHeader = some (some 0) → 0 ≤ req → p.state = PublisherState.Published →
      ∃ q acts, receiveResponse p r = JSResult.ok (q, acts) ∧
        q.pubRequestExpires = some 0 ∧ q.state = PublisherState.Unpublished ∧
        ∀ d, PubAction.refreshScheduled d ∉ acts) := by
  obtain ⟨ob, oe, oct, uoc, prb, pre, pretag, prt, dis, st, inc⟩ := p
  obtain ⟨sc, et, eh, mh⟩ := r
  dsimp only at hst hreq hterm ⊢
  subst hreq
  have h1 : isStatus1xx sc = false := by
    simp [isStatus2xx] at hst
    simp [isStatus1xx]
    omega
  refine ⟨?_, ?_, ?_, ?_⟩
  · intro e hexp h0 hle hne
    subst hexp
    have hbeq : (e == 0) = false := by simp [hne]
    rcases st with _ | _ | _ | _ <;>
      first
        | exact absurd rfl hterm
        | (cases et <;>
            simp [receiveResponse, h1, hst, receive2xx, jsTypeofNumber, jsGe, jsLe,
              h0, hle, jsEqZero, hbeq, jsMul, stateTransition, validTransition,
              pubSeq, receiveResponseCleanup] <;>
          exact ⟨_, _, ⟨rfl, rfl⟩, by simp, by simp,
            by simp [List.count_cons, List.count_nil, beq_iff_eq], by simp, by simp⟩)
  · intro e hexp hout hreq0
    subst hexp
    have hcond : (decide (0 ≤ e) && decide (e ≤ req)) = false := by
      rcases hout with hlt | hlt <;> simp <;> intro h <;> linarith
    have hbeq : (req == 0) = false := by simp [hreq0]
    rcases st with _ | _ | _ | _ <;>
      first
        | exact absurd rfl hterm
        | (cases et <;>
            simp [receiveResponse, h1, hst, receive2xx, jsTypeofNumber, jsGe, jsLe,
              hcond, jsEqZero, hbeq, jsMul, stateTransition, validTransition,
              pubSeq, receiveResponseCleanup])
  · intro hexp hreq0
    have hbeq : (req == 0) = false := by simp [hreq0]
    rcases hexp with hexp | hexp <;> subst hexp <;>
      rcases st with _ | _ | _ | _ <;>
        first
          | exact absurd rfl hterm
          | (cases et <;>
              simp [receiveResponse, h1, hst, receive2xx, jsTypeofNumber, jsGe, jsLe,
                jsEqZero, hbeq, jsMul, stateTransition, validTransition,
                pubSeq, receiveResponseCleanup])
  · intro hexp h0r hs
    subst hexp
    subst hs
    cases et <;>
      simp [receiveResponse, h1, hst, receive2xx, jsTypeofNumber, jsGe, jsLe, h0r,
        jsEqZero, stateTransition, validTransition, pubSeq, receiveResponseCleanup] <;>
    exact ⟨_, _, ⟨rfl, rfl⟩, rfl, rfl, by simp⟩

/-- Witness for C4: `Expires: 1800` granted against a requested 3600
schedules the refresh with delay `1800 * 900` ms (= 1620 seconds, 90% of
the granted 1800, not 90% of 3600). -/
theorem response2xx_grants_expires_and_schedules_ninety_percent_witness :
    ∃ q acts, receiveResponse publisher3600 response200Expires1800 = JSResult.ok (q, acts) ∧
      q.pubRequestExpires = some 1800 ∧
      q.publishRefreshTimer = some (some (1800 * 900)) ∧
      acts.count (PubAction.refreshScheduled (some (1800 * 900))) = 1 ∧
      (∀ d, PubAction.refreshScheduled d ∈ acts → d = some (1800 * 900)) ∧
      (∀ x y z, PubAction.publishSent x y z ∉ acts) :=
  (response2xx_grants_expires_and_schedules_ninety_percent publisher3600
      response200Expires1800 3600 (by decide) rfl (by decide)).1
    1800 rfl (by norm_num) (by norm_num) (by norm_num)

/-- C8: a non-disposed, non-terminated subscription receiving a NOTIFY
with `Subscription-State: terminated` and reason `deactivated` or
`timeout` rebuilds the request coordinator (which the immediate
re-subscribe then consumes: it ends subscribed with no dialog yet) and
sends exactly one new SUBSCRIBE, and the public state ends `Subscribed` —
it never transitions to `Terminated` as a result of that NOTIFY. -/
theorem notify_terminated_deactivated_resubscribes_once (s : Subscriber)
    (req : NotifyRequest) (reason : String) (ra : Option ℚ)
    (hd : s.disposed = false) (hterm : s.state ≠ SubscriptionState.Terminated)
    (hr : reason = "deactivated" ∨ reason = "timeout")
    (hh : req.subscriptionStateHeader =
      some { state := "terminated", reason := some reason, retryAfter := ra }) :
    (s.onNotify req).1.subscriberRequest = { subscribed := true, subscription := none } ∧
    (s.onNotify req).1.state = SubscriptionState.Subscribed ∧
    (s.onNotify req).2.count SubAction.subscribeSent = 1 ∧
    SubAction.subStateEmitted SubscriptionState.Terminated ∉ (s.onNotify req).2 := by
  obtain ⟨dis, st, del, sreq, dlg, rat, exp⟩ := s
  dsimp only at hd hterm ⊢
  subst hd
  rcases hr with hr | hr <;> subst hr <;>
    rcases st with _ | _ | _ | _ <;>
      first
        | exact absurd rfl hterm
        | (cases del <;>
            simp [Subscriber.onNotify, hh, subStateTransition, initSubscriberRequest,
              Subscriber.subscribe, SubscriberRequest.state, SubscriberRequest.subscribe,
              List.count_cons, List.count_nil])

/-- Witness for C8: the sample subscriber receiving
`Subscription-State: terminated;reason=deactivated`. -/
theorem notify_terminated_deactivated_resubscribes_once_witness :
    (Subscriber.onNotify sampleSubscriber notifyDeactivated).1.subscriberRequest =
      { subscribed := true, subscription := none } ∧
    (Subscriber.onNotify sampleSubscriber notifyDeactivated).1.state =
      SubscriptionState.Subscribed ∧
    (Subscriber.onNotify sampleSubscriber notifyDeactivated).2.count
      SubAction.subscribeSent = 1 ∧
    SubAction.subStateEmitted SubscriptionState.Terminated ∉
      (Subscriber.onNotify sampleSubscriber notifyDeactivated).2 :=
  notify_terminated_deactivated_resubscribes_once sampleSubscriber notifyDeactivated
    "deactivated" none rfl (by decide) (Or.inl rfl) rfl
